import Mathlib

/-!
Verification of the ngx-mat-select-search component (MatSelectSearchComponent).

The development shallowly embeds the logic of the component found in
src/unnamed/part_000:
* the viewport-fit scrolling function adjustScrollTopToFitActiveOptionIntoView,
* the multi-select restoration handler installed by initMultipleHandling,
* the value-accessor synchronization (writeValue / registerOnChange),
* the keydown handler, and the derived no-entries-found flag.

Pixel quantities (heights, scroll offsets) are modelled as rationals; JS
Math.floor and Math.round on these quantities are Int.floor and Mathlib round
(round x = ⌊x + 1/2⌋ matches the half-up behaviour of Math.round).
-/

namespace NgxMatSelectSearch

/-- The max height of the select overlay panel, the constant
SELECT_PANEL_MAX_HEIGHT of the source. -/
def SELECT_PANEL_MAX_HEIGHT : ℚ := 256

/-- Embedding of getMatOptionHeight: the measured bounding-rect height of the
first rendered option when at least one option is rendered, otherwise 0.
The list argument holds the measured heights of the rendered options in
order. -/
def getMatOptionHeight (optionHeights : List ℚ) : ℚ :=
  if 0 < optionHeights.length then optionHeights.headI else 0

/-- Embedding of getOptionsLengthOffset: the offset to the options length
caused by the optional mat-option hosting the search input, 1 when the
component sits inside a mat-option and 0 otherwise. -/
def getOptionsLengthOffset (isInsideMatOption : Bool) : ℕ :=
  if isInsideMatOption then 1 else 0

/-- The index of the option to fit into view, as computed inside
adjustScrollTopToFitActiveOptionIntoView: (this.matOption ? -1 : 0)
+ labelCount + activeOptionIndex. -/
def indexOfOptionToFitIntoView (isInsideMatOption : Bool)
    (labelCount activeOptionIndex : ℤ) : ℤ :=
  (if isInsideMatOption then -1 else 0) + labelCount + activeOptionIndex

/-- Embedding of adjustScrollTopToFitActiveOptionIntoView.  Inputs:
whether matSelect.panel exists, the rendered option heights (options.length
and getMatOptionHeight are derived from it), the key manager activeItemIndex
(none models a null index, JS `|| 0` turns it into 0), the group-label count
returned by the external helper, whether the component sits inside a
mat-option, the current panel scrollTop, and the measured height of the
search input header.  The result is the new panel scrollTop. -/
def adjustScrollTopToFitActiveOptionIntoView (panelPresent : Bool)
    (optionHeights : List ℚ) (activeItemIndex : Option ℤ) (labelCount : ℤ)
    (isInsideMatOption : Bool) (currentScrollTop searchInputHeight : ℚ) : ℚ :=
  if panelPresent = true ∧ 0 < optionHeights.length then
    let matOptionHeight := getMatOptionHeight optionHeights
    let activeOptionIndex := activeItemIndex.getD 0
    let idx := indexOfOptionToFitIntoView isInsideMatOption labelCount activeOptionIndex
    let amountOfVisibleOptions : ℤ :=
      ⌊(SELECT_PANEL_MAX_HEIGHT - searchInputHeight) / matOptionHeight⌋
    let indexOfFirstVisibleOption : ℤ :=
      round ((currentScrollTop + searchInputHeight) / matOptionHeight) - 1
    if indexOfFirstVisibleOption ≥ idx then
      (idx : ℚ) * matOptionHeight
    else if indexOfFirstVisibleOption + amountOfVisibleOptions ≤ idx then
      ((idx : ℚ) + 1) * matOptionHeight - (SELECT_PANEL_MAX_HEIGHT - searchInputHeight)
    else currentScrollTop
  else currentScrollTop

/-- Formulation of the viewport-fit computation following the words of the
specification, with the panel height fixed at 256 and the active row index
taken as a single parameter; used to compare the code against the spec. -/
def specViewportFit (rowHeight headerHeight scrollOffset : ℚ)
    (activeRowIndex : ℤ) : ℚ :=
  let visibleCount : ℤ := ⌊(256 - headerHeight) / rowHeight⌋
  let firstVisible : ℤ := round ((scrollOffset + headerHeight) / rowHeight) - 1
  if firstVisible ≥ activeRowIndex then (activeRowIndex : ℚ) * rowHeight
  else if firstVisible + visibleCount ≤ activeRowIndex then
    ((activeRowIndex : ℚ) + 1) * rowHeight - (256 - headerHeight)
  else scrollOffset

/-- The body of the forEach loop inside the valueChanges subscription of
initMultipleHandling: starting from the mutable currentSelectedValues paired
with the restoreSelectedValues flag, a previously selected value is appended
and the flag raised when it is neither compareWith-equal to a member of the
evolving current selection nor to a rendered option value. -/
def restoreFold {α : Type} (compare : α → α → Bool) (optionValues : List α)
    (previous : List α) (current : List α × Bool) : List α × Bool :=
  previous.foldl
    (fun acc previousValue =>
      if !(acc.1.any fun v => compare v previousValue)
          && !(optionValues.any fun v => compare v previousValue) then
        (acc.1 ++ [previousValue], true)
      else acc)
    current

/-- Embedding of the valueChanges subscription body installed by
initMultipleHandling.  Option (List α) models the JS value: some for an
array, none for null or a non-array value.  The result is the new
previousSelectedValues together with the selection passed to
matSelect._onChange when a restorative write-back happens (none otherwise). -/
def handleSelectionChange {α : Type} (multiple alwaysRestore : Bool)
    (compare : α → α → Bool) (filterValue : String) (optionValues : List α)
    (previous current : Option (List α)) :
    Option (List α) × Option (List α) :=
  if multiple = false then (current, none)
  else if alwaysRestore = false then (current, none)
  else if filterValue ≠ "" then
    match previous with
    | some previousList =>
        let res := restoreFold compare optionValues previousList (current.getD [], false)
        (some res.1, if res.2 = true then some res.1 else none)
    | none => (current, none)
  else (current, none)

/-- Result of running initMultipleHandling: whether the valueChanges
subscription was installed, whether the missing-ngModel diagnostic was
logged, and the previousSelectedValues stored at entry (none when left
untouched). -/
structure InitMultipleResult (α : Type) where
  subscribed : Bool
  loggedError : Bool
  storedPreviousSelectedValues : Option (Option (List α))

/-- Embedding of the entry of initMultipleHandling: without a ngControl on
the host it logs the diagnostic (only in multiple mode) and returns without
subscribing; otherwise it stores ngControl.value as previousSelectedValues
and subscribes to ngControl.valueChanges. -/
def initMultipleHandling {α : Type} (hasNgControl multiple : Bool)
    (ngControlValue : Option (List α)) : InitMultipleResult α :=
  if hasNgControl = false then
    ⟨false, multiple, none⟩
  else
    ⟨true, false, some ngControlValue⟩

/-- Embedding of the mapping defining _showNoEntriesFound$: the JS
conjunction noEntriesFoundLabel && value && optionsLength ===
getOptionsLengthOffset(), with string truthiness (a null label and the empty
string are falsy). -/
def showNoEntriesFound (noEntriesFoundLabel : Option String) (value : String)
    (optionsLength : ℕ) (isInsideMatOption : Bool) : Bool :=
  (match noEntriesFoundLabel with
    | some l => !(l == "")
    | none => false)
  && !(value == "")
  && (optionsLength == getOptionsLengthOffset isInsideMatOption)

/-- A keydown event: event.key (none models undefined) and event.keyCode. -/
structure KeydownEvent where
  key : Option String
  keyCode : ℕ

/-- Observable outcome of the keydown handler: the search value afterwards
(the escape clause resets it through _reset) and which of the two
stopPropagation call sites fired. -/
structure KeydownResult where
  newValue : String
  stoppedByAlphanumericClause : Bool
  stoppedByEscapeClause : Bool

/-- Embedding of the keydown handler with the CDK keycodes A = 65, Z = 90,
ZERO = 48, NINE = 57, SPACE = 32, HOME = 36, END = 35, ESCAPE = 27.  The
ENTER refocus clause only schedules a focus call and touches neither the
value nor propagation, so it has no modelled effect. -/
def handleKeydown (preventHomeEndKeyPropagation enableClearOnEscapePressed : Bool)
    (value : String) (ev : KeydownEvent) : KeydownResult :=
  let stop1 :=
    (match ev.key with
      | some k => k.length == 1
      | none => false)
    || (decide (65 ≤ ev.keyCode) && decide (ev.keyCode ≤ 90))
    || (decide (48 ≤ ev.keyCode) && decide (ev.keyCode ≤ 57))
    || (ev.keyCode == 32)
    || (preventHomeEndKeyPropagation && (ev.keyCode == 36 || ev.keyCode == 35))
  let escape := enableClearOnEscapePressed && (ev.keyCode == 27) && !(value == "")
  ⟨if escape = true then "" else value, stop1, escape⟩

/-- A discrete event hitting the filter-text synchronization: an external
write through writeValue, or a user edit propagated by the form control. -/
inductive FilterEvent where
  | extWrite (v : String)
  | userEdit (v : String)
deriving DecidableEq

/-- The synchronization state: the value of _lastExternalInputValue (none
models undefined) and the current form-control value. -/
structure SyncState where
  lastExternal : Option String
  formValue : String

/-- One event step of the value-accessor synchronization, returning the new
state and the value passed to the callback registered through
registerOnChange, if it fires.  writeValue records the value in
_lastExternalInputValue before setting the control, so the resulting
valueChanges emission is removed by the filter stage of the subscription; a
user edit passes the filter exactly when it differs from
_lastExternalInputValue, and the tap stage then clears
_lastExternalInputValue. -/
def syncStep (s : SyncState) : FilterEvent → SyncState × Option String
  | .extWrite v => (⟨some v, v⟩, none)
  | .userEdit v =>
      if s.lastExternal = some v then (⟨s.lastExternal, v⟩, none)
      else (⟨none, v⟩, some v)

/-- Running a list of events, collecting every callback invocation in
order. -/
def syncRun (s : SyncState) : List FilterEvent → SyncState × List String
  | [] => (s, [])
  | e :: es =>
      let stp := syncStep s e
      let rest := syncRun stp.1 es
      (rest.1, stp.2.toList ++ rest.2)

/-- Unfolded form of the spec formula. -/
theorem specViewportFit_def (R h s : ℚ) (i : ℤ) :
    specViewportFit R h s i
      = if round ((s + h) / R) - 1 ≥ i then (i : ℚ) * R
        else if round ((s + h) / R) - 1 + ⌊(256 - h) / R⌋ ≤ i then
          ((i : ℚ) + 1) * R - (256 - h)
        else s := rfl

/-- On a non-empty option list the code function agrees with the spec
formula at the combined active row index; shared unfolding lemma. -/
theorem adjustScrollTop_cons (R : ℚ) (rest : List ℚ) (aio : Option ℤ)
    (lc : ℤ) (emb : Bool) (s h : ℚ) :
    adjustScrollTopToFitActiveOptionIntoView true (R :: rest) aio lc emb s h
      = specViewportFit R h s
          (indexOfOptionToFitIntoView emb lc (aio.getD 0)) := by
  simp only [adjustScrollTopToFitActiveOptionIntoView, specViewportFit,
    getMatOptionHeight, SELECT_PANEL_MAX_HEIGHT, List.length_cons, List.headI]
  norm_num

/-- C1: for every row height R > 0 heading a non-empty rendered option list,
header height, scroll offset and key-manager state, the code function
adjustScrollTopToFitActiveOptionIntoView computes exactly the spec formula
(visibleCount = ⌊(256 − headerHeight)/R⌋, firstVisible =
round((scrollOffset + headerHeight)/R) − 1, and the three branches as stated)
at the active row index (embedded ? −1 : 0) + labelCount + activeItemIndex;
in particular with header height 56, row height 40, scroll offset 0 and
active row index 7 the new offset is 120. -/
theorem adjustScrollTop_matches_spec :
    (∀ (R : ℚ) (rest : List ℚ) (aio : Option ℤ) (lc : ℤ) (emb : Bool) (s h : ℚ),
      0 < R →
      adjustScrollTopToFitActiveOptionIntoView true (R :: rest) aio lc emb s h
        = specViewportFit R h s
            (indexOfOptionToFitIntoView emb lc (aio.getD 0)))
    ∧ specViewportFit 40 56 0 7 = 120 := by
  constructor
  · intro R rest aio lc emb s h _
    exact adjustScrollTop_cons R rest aio lc emb s h
  · norm_num [specViewportFit, round_eq]

/-- Witness for C1: the theorem applied at the scenario of the claim, row
height 40, header height 56, scroll offset 0 and active row index 7. -/
theorem adjustScrollTop_matches_spec_witness :
    adjustScrollTopToFitActiveOptionIntoView true [40] (some 7) 0 false 0 56
      = specViewportFit 40 56 0
          (indexOfOptionToFitIntoView false 0 ((some 7).getD 0)) :=
  adjustScrollTop_matches_spec.1 40 [] (some 7) 0 false 0 56 (by norm_num)

/-- C8: with an empty rendered option list the scroll adjustment is a no-op
guarded by the options-count check, leaving the scroll offset unchanged for
every value of the other inputs, and getMatOptionHeight yields 0. -/
theorem adjustScrollTop_noOptions_noop :
    (∀ (p : Bool) (aio : Option ℤ) (lc : ℤ) (emb : Bool) (s h : ℚ),
      adjustScrollTopToFitActiveOptionIntoView p [] aio lc emb s h = s)
    ∧ getMatOptionHeight [] = 0 := by
  refine ⟨fun p aio lc emb s h => ?_, by simp [getMatOptionHeight]⟩
  simp [adjustScrollTopToFitActiveOptionIntoView]

/-- With pairwise non-equivalent previous values the membership checks
against the evolving current selection agree with those against the incoming
selection, so the restore loop appends exactly the previous values that pass
the check against the incoming state, and raises the flag exactly when at
least one was appended. -/
theorem restoreFold_eq_filter {α : Type} (compare : α → α → Bool)
    (optionValues : List α) (previous : List α) :
    ∀ (current : List α) (b : Bool),
    previous.Pairwise (fun x y => compare x y = false) →
    restoreFold compare optionValues previous (current, b)
      = (current ++ previous.filter
            (fun pv => !(current.any fun v => compare v pv)
              && !(optionValues.any fun v => compare v pv)),
         b || !(previous.filter
            (fun pv => !(current.any fun v => compare v pv)
              && !(optionValues.any fun v => compare v pv))).isEmpty) := by
  induction previous with
  | nil => intro current b _; simp [restoreFold]
  | cons pv rest ih =>
      intro current b hp
      have hhead : ∀ x ∈ rest, compare pv x = false := (List.pairwise_cons.mp hp).1
      have htail := (List.pairwise_cons.mp hp).2
      by_cases hpv : (!(current.any fun v => compare v pv)
          && !(optionValues.any fun v => compare v pv)) = true
      · have hstep : restoreFold compare optionValues (pv :: rest) (current, b)
            = restoreFold compare optionValues rest (current ++ [pv], true) := by
          unfold restoreFold
          rw [List.foldl_cons, if_pos hpv]
        rw [hstep, ih (current ++ [pv]) true htail]
        have hcongr : ∀ x ∈ rest,
            (!( (current ++ [pv]).any fun v => compare v x)
              && !(optionValues.any fun v => compare v x))
            = (!(current.any fun v => compare v x)
              && !(optionValues.any fun v => compare v x)) := by
          intro x hx
          simp [List.any_append, hhead x hx]
        rw [List.filter_congr hcongr]
        simp [List.filter_cons, hpv]
      · have hstep : restoreFold compare optionValues (pv :: rest) (current, b)
            = restoreFold compare optionValues rest (current, b) := by
          unfold restoreFold
          rw [List.foldl_cons, if_neg hpv]
        rw [hstep, ih current b htail]
        simp [List.filter_cons, hpv]

/-- C3: in multiple mode with the restoration flag enabled and a non-empty
filter text, a selection change writes back the current selection augmented
with every previously selected value that is neither compareWith-equal to a
member of the current selection nor to a rendered option value (previous
values assumed pairwise non-equivalent, as for a set of distinct values);
the same list is stored as previousSelectedValues. -/
theorem multiHandling_restores_deselected {α : Type} (compare : α → α → Bool)
    (filterValue : String) (optionValues previousList currentList : List α)
    (hfilter : filterValue ≠ "")
    (hp : previousList.Pairwise fun x y => compare x y = false)
    (hrestored : previousList.filter
        (fun pv => !(currentList.any fun v => compare v pv)
          && !(optionValues.any fun v => compare v pv)) ≠ []) :
    handleSelectionChange true true compare filterValue optionValues
        (some previousList) (some currentList)
      = (some (currentList ++ previousList.filter
            (fun pv => !(currentList.any fun v => compare v pv)
              && !(optionValues.any fun v => compare v pv))),
         some (currentList ++ previousList.filter
            (fun pv => !(currentList.any fun v => compare v pv)
              && !(optionValues.any fun v => compare v pv)))) := by
  have hrun := restoreFold_eq_filter compare optionValues previousList
    currentList false hp
  have hne : (previousList.filter
      (fun pv => !(currentList.any fun v => compare v pv)
        && !(optionValues.any fun v => compare v pv))).isEmpty = false := by
    cases hfe : previousList.filter
        (fun pv => !(currentList.any fun v => compare v pv)
          && !(optionValues.any fun v => compare v pv)) with
    | nil => exact absurd hfe hrestored
    | cons x xs => simp
  simp only [handleSelectionChange, Option.getD_some, hrun, hne]
  simp [hfilter]

/-- Witness for C3: previousSelection = [1, 2, 3], currentSelection = [1],
rendered option values = [1], restoration enabled, filter text non-empty:
the written-back selection is [1, 2, 3]. -/
theorem multiHandling_restores_deselected_witness :
    handleSelectionChange true true (fun a b : ℕ => a == b) "x" [1]
        (some [1, 2, 3]) (some [1])
      = (some [1, 2, 3], some [1, 2, 3]) :=
  (multiHandling_restores_deselected (fun a b : ℕ => a == b) "x" [1]
    [1, 2, 3] [1] (by decide) (by decide) (by decide)).trans (by decide)

/-- C6: in multiple mode, when the restoration flag is disabled or the
filter text is empty, no restorative write-back happens and the incoming
current selection is stored as previousSelectedValues unchanged. -/
theorem multiHandling_skip_writeback {α : Type} (alwaysRestore : Bool)
    (compare : α → α → Bool) (filterValue : String) (optionValues : List α)
    (previous current : Option (List α))
    (hskip : alwaysRestore = false ∨ filterValue = "") :
    handleSelectionChange true alwaysRestore compare filterValue optionValues
        previous current = (current, none) := by
  rcases hskip with h | h
  · simp [handleSelectionChange, h]
  · subst h
    cases alwaysRestore <;> simp [handleSelectionChange]

/-- Witness for C6: restoration disabled, previous [1, 2], current [1]: the
stored selection is exactly [1] and nothing is written back. -/
theorem multiHandling_skip_writeback_witness :
    handleSelectionChange true false (fun a b : ℕ => a == b) "x" [1]
        (some [1, 2]) (some [1]) = (some [1], none) :=
  multiHandling_skip_writeback false (fun a b : ℕ => a == b) "x" [1]
    (some [1, 2]) (some [1]) (Or.inl rfl)

/-- C7: without a ngControl on the host, initMultipleHandling installs no
subscription (hence never writes back a selection), logs the diagnostic
exactly when multiple mode is active, and leaves previousSelectedValues
untouched. -/
theorem initMultipleHandling_no_ngControl {α : Type} (multiple : Bool)
    (ngControlValue : Option (List α)) :
    (initMultipleHandling false multiple ngControlValue
        : InitMultipleResult α).subscribed = false
    ∧ (initMultipleHandling false multiple ngControlValue
        : InitMultipleResult α).loggedError = multiple
    ∧ (initMultipleHandling false multiple ngControlValue
        : InitMultipleResult α).storedPreviousSelectedValues = none :=
  ⟨rfl, rfl, rfl⟩

/-- C9: the no-entries-found flag is true exactly when the label is present
and non-empty, the search text is non-empty, and the rendered options count
equals the embedding offset, which is 1 inside a mat-option and 0
otherwise. -/
theorem showNoEntriesFound_iff :
    (∀ (lbl : Option String) (v : String) (n : ℕ) (emb : Bool),
      showNoEntriesFound lbl v n emb = true
        ↔ (∃ s, lbl = some s ∧ s ≠ "") ∧ v ≠ ""
            ∧ n = getOptionsLengthOffset emb)
    ∧ getOptionsLengthOffset true = 1 ∧ getOptionsLengthOffset false = 0 := by
  refine ⟨fun lbl v n emb => ?_, rfl, rfl⟩
  cases lbl with
  | none => simp [showNoEntriesFound]
  | some l => simp [showNoEntriesFound, and_assoc]

/-- C10: with enableClearOnEscapePressed set, an Escape keydown on a
non-empty search value resets the value to the empty string and stops
propagation in the escape clause; with an empty value or the flag unset the
escape clause leaves the value unchanged and does not stop propagation. -/
theorem handleKeydown_escape :
    ∀ (php flag : Bool) (value : String) (ev : KeydownEvent),
    (flag = true → ev.keyCode = 27 → value ≠ "" →
      (handleKeydown php flag value ev).newValue = ""
      ∧ (handleKeydown php flag value ev).stoppedByEscapeClause = true)
    ∧ ((value = "" ∨ flag = false) →
      (handleKeydown php flag value ev).newValue = value
      ∧ (handleKeydown php flag value ev).stoppedByEscapeClause = false) := by
  intro php flag value ev
  constructor
  · intro hf hk hv
    have hvb : (value == "") = false := beq_eq_false_iff_ne.mpr hv
    simp [handleKeydown, hf, hk, hvb]
  · intro h
    rcases h with h | h
    · subst h; simp [handleKeydown]
    · simp [handleKeydown, h]

/-- Witness for C10: Escape (keycode 27) with flag set on value abc clears
the value and stops propagation in the escape clause. -/
theorem handleKeydown_escape_witness :
    (handleKeydown false true "abc" ⟨some "Escape", 27⟩).newValue = ""
    ∧ (handleKeydown false true "abc" ⟨some "Escape", 27⟩).stoppedByEscapeClause
        = true :=
  (handleKeydown_escape false true "abc" ⟨some "Escape", 27⟩).1 rfl rfl
    (by decide)

/-- After an external write of V, user edits that all carry the value V keep
the state fixed and never fire the callback. -/
theorem syncRun_userEdit_same (V : String) (edits : List FilterEvent)
    (h : ∀ e ∈ edits, e = FilterEvent.userEdit V) :
    syncRun ⟨some V, V⟩ edits = (⟨some V, V⟩, []) := by
  induction edits with
  | nil => rfl
  | cons e es ih =>
      have he : e = FilterEvent.userEdit V := h e (List.mem_cons_self e es)
      subst he
      have hrest := ih fun x hx => h x (List.mem_cons_of_mem _ hx)
      simp [syncRun, syncStep, hrest]

/-- C4: the external-write path never fires the change callback with the
written value V as long as the user only ever re-enters V (first conjunct);
a user edit fires the callback exactly when its value differs from the value
recorded by the most recent external write and not yet cleared (second
conjunct); and after editing away from V and back to V the callback does
fire with V, since the passing edit cleared the recorded external value
(third conjunct). -/
theorem writeValue_suppresses_callback :
    (∀ (s : SyncState) (V : String) (edits : List FilterEvent),
      (∀ e ∈ edits, e = FilterEvent.userEdit V) →
      (syncRun s (FilterEvent.extWrite V :: edits)).2 = [])
    ∧ (∀ (s : SyncState) (v : String),
      (syncStep s (FilterEvent.userEdit v)).2 = some v
        ↔ s.lastExternal ≠ some v)
    ∧ (∀ (s : SyncState) (V w : String), w ≠ V →
      (syncRun s [FilterEvent.extWrite V, FilterEvent.userEdit w,
        FilterEvent.userEdit V]).2 = [w, V]) := by
  refine ⟨fun s V edits h => ?_, fun s v => ?_, fun s V w hw => ?_⟩
  · simp [syncRun, syncStep, syncRun_userEdit_same V edits h]
  · by_cases hle : s.lastExternal = some v
    · simp [syncStep, hle]
    · simp [syncStep, hle]
  · have h1 : ¬ (some V = some w) := by
      intro hc
      exact hw (Option.some.inj hc).symm
    simp [syncRun, syncStep, h1]

/-- Witness for C4: external write of a followed by a re-entry of a fires
nothing, and editing to b then back to a fires with b and then a. -/
theorem writeValue_suppresses_callback_witness :
    (syncRun ⟨none, ""⟩ [FilterEvent.extWrite "a",
        FilterEvent.userEdit "a"]).2 = []
    ∧ (syncRun ⟨none, ""⟩ [FilterEvent.extWrite "a", FilterEvent.userEdit "b",
        FilterEvent.userEdit "a"]).2 = ["b", "a"] :=
  ⟨writeValue_suppresses_callback.1 ⟨none, ""⟩ "a" [FilterEvent.userEdit "a"]
      (by decide),
   writeValue_suppresses_callback.2.2 ⟨none, ""⟩ "a" "b" (by decide)⟩

/-- Counterexample to C2 as stated: with row height 10, header height 100
(at most 256), scroll offset 0 and active row index 0, the adjustment takes
the scroll-up branch and returns offset 0, but
⌊(0 + 100)/10⌋ − 1 = 9 is not at or before the active row 0, so the claimed
lower window bound fails. -/
theorem adjustScrollTop_window_counterexample :
    ¬ (⌊(adjustScrollTopToFitActiveOptionIntoView true [10] (some 0) 0 false
          0 100 + 100) / 10⌋ - 1
        ≤ indexOfOptionToFitIntoView false 0 ((some 0).getD 0)) := by
  have hval : adjustScrollTopToFitActiveOptionIntoView true [10] (some 0) 0
      false 0 100 = 0 := by
    norm_num [adjustScrollTopToFitActiveOptionIntoView, getMatOptionHeight,
      indexOfOptionToFitIntoView, SELECT_PANEL_MAX_HEIGHT, round_eq]
  rw [hval]
  norm_num [indexOfOptionToFitIntoView]

/-- Window bounds for the spec formula under the amended side conditions
R ≤ headerHeight < 2R, 2·headerHeight − 256 < R and headerHeight ≤ 256. -/
theorem specViewportFit_window (R h s : ℚ) (i : ℤ) (hR : 0 < R)
    (hRh : R ≤ h) (hh2 : h < 2 * R) (hhr : 2 * h - 256 < R)
    (hh256 : h ≤ 256) :
    ⌊(specViewportFit R h s i + h) / R⌋ - 1 ≤ i
    ∧ i ≤ ⌊(specViewportFit R h s i + h) / R⌋ - 1 + ⌊(256 - h) / R⌋ := by
  have hRne : R ≠ 0 := ne_of_gt hR
  have hfloor1 : ⌊h / R⌋ = 1 := by
    rw [Int.floor_eq_iff]
    constructor
    · exact_mod_cast (one_le_div hR).mpr hRh
    · rw [div_lt_iff hR]
      push_cast
      linarith
  have hV0 : 0 ≤ ⌊(256 - h) / R⌋ :=
    Int.floor_nonneg.mpr (div_nonneg (by linarith) hR.le)
  rw [specViewportFit_def]
  split_ifs with h1 h2
  · have hfl : ⌊((i : ℚ) * R + h) / R⌋ = i + 1 := by
      rw [add_div, mul_div_cancel_right₀ _ hRne, Int.floor_int_add, hfloor1]
    rw [hfl]
    omega
  · have harg : ((i : ℚ) + 1) * R - (256 - h) + h
        = ((i + 1 : ℤ) : ℚ) * R + (2 * h - 256) := by
      push_cast
      ring
    have hfl : ⌊(((i : ℚ) + 1) * R - (256 - h) + h) / R⌋
        = (i + 1) + ⌊(2 * h - 256) / R⌋ := by
      rw [harg, add_div, mul_div_cancel_right₀ _ hRne, Int.floor_int_add]
    rw [hfl]
    have hD : ⌊(2 * h - 256) / R⌋ ≤ 0 := by
      have hlt : ⌊(2 * h - 256) / R⌋ < 1 := by
        rw [Int.floor_lt, div_lt_iff hR]
        push_cast
        linarith
      omega
    have hsum : 0 ≤ ⌊(2 * h - 256) / R⌋ + ⌊(256 - h) / R⌋ := by
      have hab : (2 * h - 256) / R + (256 - h) / R = h / R := by
        rw [div_add_div_same]
        ring_nf
      have hlb := Int.le_floor_add_floor ((2 * h - 256) / R) ((256 - h) / R)
      rw [hab, hfloor1] at hlb
      omega
    omega
  · push_neg at h1 h2
    have hfr : ⌊(s + h) / R⌋ ≤ round ((s + h) / R) := by
      rw [round_eq]
      exact Int.floor_mono (by linarith)
    have hrf : round ((s + h) / R) ≤ ⌊(s + h) / R⌋ + 1 := by
      rw [round_eq]
      have hm : ⌊(s + h) / R + 1 / 2⌋ ≤ ⌊(s + h) / R + 1⌋ :=
        Int.floor_mono (by linarith)
      rw [Int.floor_add_one] at hm
      exact hm
    omega

/-- C2 amended: with R ≤ headerHeight < 2R, 2·headerHeight − 256 < R and
headerHeight ≤ 256, one application of the adjustment leaves the active row
inside the visible window: ⌊(S + headerHeight)/R⌋ − 1 ≤ activeRowIndex
≤ ⌊(S + headerHeight)/R⌋ − 1 + ⌊(256 − headerHeight)/R⌋. -/
theorem adjustScrollTop_active_in_window (R : ℚ) (rest : List ℚ)
    (aio : Option ℤ) (lc : ℤ) (emb : Bool) (s h : ℚ) (hR : 0 < R)
    (hRh : R ≤ h) (hh2 : h < 2 * R) (hhr : 2 * h - 256 < R)
    (hh256 : h ≤ 256) :
    ⌊(adjustScrollTopToFitActiveOptionIntoView true (R :: rest) aio lc emb
        s h + h) / R⌋ - 1 ≤ indexOfOptionToFitIntoView emb lc (aio.getD 0)
    ∧ indexOfOptionToFitIntoView emb lc (aio.getD 0)
        ≤ ⌊(adjustScrollTopToFitActiveOptionIntoView true (R :: rest) aio lc
            emb s h + h) / R⌋ - 1 + ⌊(256 - h) / R⌋ := by
  rw [adjustScrollTop_cons]
  exact specViewportFit_window R h s _ hR hRh hh2 hhr hh256

/-- Witness for the amended C2 at the realistic measurements row height 40,
header height 56, scroll offset 0, active row index 7. -/
theorem adjustScrollTop_active_in_window_witness :
    ⌊(adjustScrollTopToFitActiveOptionIntoView true [40] (some 7) 0 false
        0 56 + 56) / 40⌋ - 1 ≤ indexOfOptionToFitIntoView false 0 ((some 7).getD 0)
    ∧ indexOfOptionToFitIntoView false 0 ((some 7).getD 0)
        ≤ ⌊(adjustScrollTopToFitActiveOptionIntoView true [40] (some 7) 0
            false 0 56 + 56) / 40⌋ - 1 + ⌊(256 - 56 : ℚ) / 40⌋ :=
  adjustScrollTop_active_in_window 40 [] (some 7) 0 false 0 56 (by norm_num)
    (by norm_num) (by norm_num) (by norm_num) (by norm_num)

/-- Counterexample to C5 as stated: with row height 200, header height 50,
active row index 0 and scroll offset 150, the first application scrolls up
to offset 0, and the second application then takes the scroll-down branch to
offset −6, so applying the adjustment twice differs from applying it
once. -/
theorem adjustScrollTop_not_idempotent :
    adjustScrollTopToFitActiveOptionIntoView true [200] (some 0) 0 false
        (adjustScrollTopToFitActiveOptionIntoView true [200] (some 0) 0 false
          150 50) 50
      ≠ adjustScrollTopToFitActiveOptionIntoView true [200] (some 0) 0 false
          150 50 := by
  have h1 : adjustScrollTopToFitActiveOptionIntoView true [200] (some 0) 0
      false 150 50 = 0 := by
    norm_num [adjustScrollTopToFitActiveOptionIntoView, getMatOptionHeight,
      indexOfOptionToFitIntoView, SELECT_PANEL_MAX_HEIGHT, round_eq]
  rw [h1]
  norm_num [adjustScrollTopToFitActiveOptionIntoView, getMatOptionHeight,
    indexOfOptionToFitIntoView, SELECT_PANEL_MAX_HEIGHT, round_eq]

/-- Idempotence of the spec formula under the amended side conditions. -/
theorem specViewportFit_idem (R h s : ℚ) (i : ℤ) (hR : 0 < R)
    (hc1 : 2 ≤ round (h / R) + ⌊(256 - h) / R⌋)
    (hc2 : R / 2 < 256 - 2 * h) :
    specViewportFit R h (specViewportFit R h s i) i
      = specViewportFit R h s i := by
  have hRne : R ≠ 0 := ne_of_gt hR
  rw [specViewportFit_def R h s i]
  split_ifs with h1 h2
  · rw [specViewportFit_def]
    have hf : round (((i : ℚ) * R + h) / R) = i + round (h / R) := by
      rw [add_div, mul_div_cancel_right₀ _ hRne, round_int_add]
    split_ifs with g1 g2
    · rfl
    · exfalso
      rw [hf] at g1 g2
      omega
    · rfl
  · rw [specViewportFit_def]
    have harg : ((i : ℚ) + 1) * R - (256 - h) + h
        = ((i + 1 : ℤ) : ℚ) * R + (2 * h - 256) := by
      push_cast
      ring
    have hf : round ((((i : ℚ) + 1) * R - (256 - h) + h) / R)
        = (i + 1) + round ((2 * h - 256) / R) := by
      rw [harg, add_div, mul_div_cancel_right₀ _ hRne, round_int_add]
    have hrneg : round ((2 * h - 256) / R) ≤ -1 := by
      have hx : (2 * h - 256) / R + 1 / 2 < 0 := by
        have hlt : (2 * h - 256) / R < -(1 / 2) := by
          rw [div_lt_iff hR]
          linarith
        linarith
      have hfl : ⌊(2 * h - 256) / R + 1 / 2⌋ < 0 := by
        rw [Int.floor_lt]
        exact_mod_cast hx
      rw [round_eq]
      omega
    split_ifs with g1 g2
    · exfalso
      rw [hf] at g1
      omega
    · rfl
    · rfl
  · rw [specViewportFit_def, if_neg h1, if_neg h2]

/-- C5 amended: the adjustment is idempotent on the scroll offset provided
round(headerHeight/R) + ⌊(256 − headerHeight)/R⌋ ≥ 2 (at least two rows of
room by the code's own measures) and 256 − 2·headerHeight > R/2 (the
scroll-down target never reads as at or after the active row). -/
theorem adjustScrollTop_idempotent (R : ℚ) (rest : List ℚ) (aio : Option ℤ)
    (lc : ℤ) (emb : Bool) (s h : ℚ) (hR : 0 < R)
    (hc1 : 2 ≤ round (h / R) + ⌊(256 - h) / R⌋)
    (hc2 : R / 2 < 256 - 2 * h) :
    adjustScrollTopToFitActiveOptionIntoView true (R :: rest) aio lc emb
        (adjustScrollTopToFitActiveOptionIntoView true (R :: rest) aio lc emb
          s h) h
      = adjustScrollTopToFitActiveOptionIntoView true (R :: rest) aio lc emb
          s h := by
  simp only [adjustScrollTop_cons]
  exact specViewportFit_idem R h s _ hR hc1 hc2

/-- Witness for the amended C5 at row height 40, header height 56, scroll
offset 0, active item index 7. -/
theorem adjustScrollTop_idempotent_witness :
    adjustScrollTopToFitActiveOptionIntoView true [40] (some 7) 0 false
        (adjustScrollTopToFitActiveOptionIntoView true [40] (some 7) 0 false
          0 56) 56
      = adjustScrollTopToFitActiveOptionIntoView true [40] (some 7) 0 false
          0 56 :=
  adjustScrollTop_idempotent 40 [] (some 7) 0 false 0 56 (by norm_num)
    (by norm_num [round_eq]) (by norm_num)

end NgxMatSelectSearch
